import Mathlib

/-!
Shallow embedding of `server-turnstile-check.js` (two variants of an Express
server relaying Cloudflare Turnstile token verification), together with
theorems settling the specification claims about it.

The file has two parts: first the definitions translated from the source,
then the theorems.
-/

mutual
/-- JSON values, as produced by `response.json()` / `express.json()`.
Mutual with the list types of array elements and object fields. -/
inductive Json where
  | null : Json
  | bool (b : Bool) : Json
  | num (n : Int) : Json
  | str (s : String) : Json
  | arr (xs : JsonList) : Json
  | obj (fields : JsonFields) : Json
  deriving DecidableEq, Repr
inductive JsonList where
  | nil : JsonList
  | cons (hd : Json) (tl : JsonList) : JsonList
  deriving DecidableEq, Repr
inductive JsonFields where
  | nil : JsonFields
  | cons (k : String) (v : Json) (tl : JsonFields) : JsonFields
  deriving DecidableEq, Repr
end

/-- Build object fields from an association list, for readable literals. -/
def Json.mkFields : List (String × Json) → JsonFields
  | [] => JsonFields.nil
  | (k, v) :: tl => JsonFields.cons k v (Json.mkFields tl)

/-- A JSON object literal from an association list. -/
def Json.mkObj (l : List (String × Json)) : Json := Json.obj (Json.mkFields l)

/-- Own-property lookup among object fields (`JSON.parse` never yields
duplicate keys, so first match suffices). -/
def JsonFields.get : JsonFields → String → Option Json
  | JsonFields.nil, _ => none
  | JsonFields.cons k v tl, key => if k = key then some v else tl.get key

/-- JavaScript truthiness of a property-access result (`none` is `undefined`).
Falsy values: `undefined`, `null`, `false`, `0`, `""`; objects and arrays are
always truthy. -/
def truthy : Option Json → Bool
  | none => false
  | some Json.null => false
  | some (Json.bool b) => b
  | some (Json.num n) => n != 0
  | some (Json.str s) => s != ""
  | some (Json.arr _) => true
  | some (Json.obj _) => true

/-- JavaScript member access `v.k` on a parsed-JSON value: throws a
`TypeError` when `v` is `null`; yields the named own property of an object
(`undefined` = `none` when absent); yields `undefined` on every other
primitive or array (no own property named `k`). -/
def jsGet : Json → String → Except String (Option Json)
  | Json.null, _ => Except.error "TypeError: Cannot read properties of null"
  | Json.obj fs, k => Except.ok (fs.get k)
  | _, _ => Except.ok none

/-- `URLSearchParams.append` coerces a missing (`undefined`) value to the
literal string `"undefined"`. -/
def serializeParam : Option String → String
  | none => "undefined"
  | some s => s

/-- Environment-sourced configuration, read once at startup via `dotenv`.
Each variable may be unset (`undefined`), hence `Option String`.
`recaptchaSecret` is only used by the spec-modelled `/recaptcha` route. -/
structure Config where
  turnstileSecret : Option String   -- TURNSTILE_SECRET_KEY (single-mode variant)
  normalSecret : Option String      -- TURNSTILE_CHECK_SECRET_KEY
  invisibleSecret : Option String   -- TURNSTILE_INVISIBLE_SECRET_KEY
  recaptchaSecret : Option String   -- reCAPTCHA secret (spec-modelled route)
  deriving DecidableEq, Repr

/-- The destructured request body `{ token, mode }`; either field may be
absent (`undefined`). -/
structure Req where
  token : Option String
  mode : Option String
  deriving DecidableEq, Repr

/-- `SECRET_KEY[mode]`: the lookup on the two-key object
`{ normal: ..., invisible: ... }`. Any other key (or `undefined`) yields
`undefined`. -/
def secretLookup (c : Config) : Option String → Option String
  | some "normal" => c.normalSecret
  | some "invisible" => c.invisibleSecret
  | _ => none

/-- What happens on the outbound `fetch` + `.json()` for one request: the
fetch rejects (network error), the body fails to parse as JSON, or a JSON
value is obtained. The `String` carries the JS error detail. -/
inductive FetchOutcome where
  | netError (err : String) : FetchOutcome
  | badJson (err : String) : FetchOutcome
  | ok (body : Json) : FetchOutcome
  deriving DecidableEq, Repr

/-- One outbound HTTP call as issued by `fetch(url, {method, body})`. -/
structure OutboundCall where
  method : String
  url : String
  payload : List (String × String)
  deriving DecidableEq, Repr

/-- A response body: a JSON document (`res.json` / `res.send(object)`),
plain text (`res.sendStatus`), or empty. -/
inductive Body where
  | json (j : Json) : Body
  | text (s : String) : Body
  | empty : Body
  deriving DecidableEq, Repr

/-- The response written for the inbound request. -/
structure HttpResponse where
  status : Nat
  body : Body
  deriving DecidableEq, Repr

/-- Everything one handler invocation does: the response it writes, the
outbound calls it issues (in order), and the console lines it logs. -/
structure HandlerResult where
  response : HttpResponse
  calls : List OutboundCall
  log : List String
  deriving DecidableEq, Repr

def turnstileURL : String := "https://challenges.cloudflare.com/turnstile/v0/siteverify"

def recaptchaURL : String := "https://www.google.com/recaptcha/api/siteverify"

/-- The generic 500 body sent from every catch block. -/
def internalErrorBody : Json := Json.mkObj [("error", Json.str "Internal server error")]

/-- `console.error("Error verifying turnstile token:", error)`. -/
def errLog (e : String) : String := "Error verifying turnstile token: " ++ e

/-- The form payload built by the two `formData.append` calls: first
`secret`, then `response` (the token), each coerced by `URLSearchParams`. -/
def formPayload (secret token : Option String) : List (String × String) :=
  [("secret", serializeParam secret), ("response", serializeParam token)]

/-- Handler of the multi-mode variant of `POST /turnstile-check`
(second document, lines 109–138): resolves `SECRET_KEY[mode]`, issues one
POST to the Turnstile verify URL, then branches on `data.success`
(200 `{success:true}` / 400 `{success:false}`); any rejection — network
error, JSON parse failure, or the `TypeError` thrown by `data.success`
when `data` is `null` — is caught and mapped to 500 with a generic body,
the error being logged. -/
def multiModeHandler (c : Config) (r : Req) (up : FetchOutcome) : HandlerResult :=
  let call : OutboundCall :=
    ⟨"POST", turnstileURL, formPayload (secretLookup c r.mode) r.token⟩
  match up with
  | FetchOutcome.netError e =>
      ⟨⟨500, Body.json internalErrorBody⟩, [call], [errLog e]⟩
  | FetchOutcome.badJson e =>
      ⟨⟨500, Body.json internalErrorBody⟩, [call], [errLog e]⟩
  | FetchOutcome.ok body =>
      match jsGet body "success" with
      | Except.error e =>
          ⟨⟨500, Body.json internalErrorBody⟩, [call], [errLog e]⟩
      | Except.ok v =>
          if truthy v then
            ⟨⟨200, Body.json (Json.mkObj [("success", Json.bool true)])⟩, [call], []⟩
          else
            ⟨⟨400, Body.json (Json.mkObj [("success", Json.bool false)])⟩, [call], []⟩

/-- Handler of the single-mode variant of `POST /turnstile-check`
(first document, lines 22–44): fixed secret from the environment, one POST
to the Turnstile verify URL, and `res.json(data)` relaying the parsed
provider body verbatim with the default 200 status; rejections map to 500
with the generic body. -/
def singleModeHandler (c : Config) (r : Req) (up : FetchOutcome) : HandlerResult :=
  let call : OutboundCall :=
    ⟨"POST", turnstileURL, formPayload c.turnstileSecret r.token⟩
  match up with
  | FetchOutcome.netError e =>
      ⟨⟨500, Body.json internalErrorBody⟩, [call], [errLog e]⟩
  | FetchOutcome.badJson e =>
      ⟨⟨500, Body.json internalErrorBody⟩, [call], [errLog e]⟩
  | FetchOutcome.ok body =>
      ⟨⟨200, Body.json body⟩, [call], []⟩

/-- Outcome of one middleware: write a response and stop, or call `next()`. -/
inductive MiddlewareStep where
  | respond (r : HttpResponse) : MiddlewareStep
  | next : MiddlewareStep
  deriving DecidableEq, Repr

/-- The CORS middleware of the multi-mode variant (lines 84–94): sets the
CORS headers and, for `OPTIONS` requests, short-circuits with
`res.sendStatus(200)` — which in Express sends the status text `"OK"` as a
plain-text body. -/
def corsMiddleware (method : String) : MiddlewareStep :=
  if method = "OPTIONS" then MiddlewareStep.respond ⟨200, Body.text "OK"⟩
  else MiddlewareStep.next

/-- Request dispatch of the multi-mode server: CORS middleware first, then
the single registered route `POST /turnstile-check`. Requests matching no
route fall through to the framework default handler (404; its body is not
modelled further, no claim depends on it). -/
def dispatchMulti (c : Config) (method : String) (path : String) (r : Req)
    (up : FetchOutcome) : HandlerResult :=
  match corsMiddleware method with
  | MiddlewareStep.respond resp => ⟨resp, [], []⟩
  | MiddlewareStep.next =>
      if method = "POST" ∧ path = "/turnstile-check" then
        multiModeHandler c r up
      else
        ⟨⟨404, Body.empty⟩, [], []⟩

/-- The process-wide mutable state visible to the multi-mode handler: the
configuration bindings (`SECRET_KEY`, environment) and the console. The
handler only ever reads the former and appends to the latter. -/
structure ProcState where
  config : Config
  console : List String
  deriving DecidableEq, Repr

/-- One request handled against the process state: the response is computed
from the configuration, the request and the upstream outcome; the only
state change is appending the handler's log lines to the console. -/
def serverStep (s : ProcState) (r : Req) (up : FetchOutcome) :
    HttpResponse × ProcState :=
  let hr := multiModeHandler s.config r up
  (hr.response, ⟨s.config, s.console ++ hr.log⟩)

/-- Effect of a process-level event handler: console lines written, and
whether (and with which code) `process.exit` is called afterwards. -/
structure ExitAction where
  log : List String
  exit : Option Nat
  deriving DecidableEq, Repr

/-- `.on("error", ...)` of `app.listen` (lines 146–155): logs a dedicated
message for `EADDRINUSE` (port already bound), a generic one otherwise, and
calls `process.exit(1)` in both cases. -/
def listenErrorHandler (port : Nat) (code : String) : ExitAction :=
  if code = "EADDRINUSE" then
    ⟨["❌ Port " ++ toString port ++ " is already in use. Please stop the other process or use a different port."],
     some 1⟩
  else
    ⟨["Server error: " ++ code], some 1⟩

/-- `process.on("unhandledRejection", ...)` (lines 158–160): logs the
rejection and returns — no `process.exit` call. -/
def unhandledRejectionHandler (promise reason : String) : ExitAction :=
  ⟨["Unhandled Rejection at: " ++ promise ++ " reason: " ++ reason], none⟩

/-- `process.on("uncaughtException", ...)` (lines 163–166): logs the error
and calls `process.exit(1)`. -/
def uncaughtExceptionHandler (err : String) : ExitAction :=
  ⟨["Uncaught Exception: " ++ err], some 1⟩

/-- Reading the `success` field in the spec-modelled operation: the spec
treats the provider as an opaque endpoint returning a JSON object with at
least a `success` boolean; a non-object body simply has no such field. -/
def successField : Json → Option Json
  | Json.obj fs => fs.get "success"
  | _ => none

/-- Modelled from the spec: the repository's `/recaptcha` server file is not
among the sources under scrutiny (only the two Turnstile files are), so the
generic verification operation of spec §4.1 is modelled from the spec's
words: it is parameterized by a secret and a verification URL; a missing
secret yields 400 with a descriptive error body before any outbound call;
otherwise one form-encoded POST (`secret`, `response`) is issued and the
provider's truthy `success` maps to 200 `{success:true}`, anything else to
400 `{success:false}`; network/parse failures map to 500 with the generic
body. -/
def verifyWith (secret : Option String) (url : String) (invalidMsg : String)
    (token : Option String) (up : FetchOutcome) : HandlerResult :=
  match secret with
  | none =>
      ⟨⟨400, Body.json (Json.mkObj [("error", Json.str invalidMsg)])⟩, [], []⟩
  | some s =>
      let call : OutboundCall := ⟨"POST", url, formPayload (some s) token⟩
      match up with
      | FetchOutcome.netError e =>
          ⟨⟨500, Body.json internalErrorBody⟩, [call], [errLog e]⟩
      | FetchOutcome.badJson e =>
          ⟨⟨500, Body.json internalErrorBody⟩, [call], [errLog e]⟩
      | FetchOutcome.ok body =>
          if truthy (successField body) then
            ⟨⟨200, Body.json (Json.mkObj [("success", Json.bool true)])⟩, [call], []⟩
          else
            ⟨⟨400, Body.json (Json.mkObj [("success", Json.bool false)])⟩, [call], []⟩

/-- Modelled from the spec: the `POST /recaptcha` route is the thin binding
of the generic verification operation to the reCAPTCHA secret and the
Google siteverify URL, with the 400 error body `{error:"Invalid secret key"}`
for a missing secret (spec §6 table). -/
def recaptchaHandler (c : Config) (token : Option String) (up : FetchOutcome) :
    HandlerResult :=
  verifyWith c.recaptchaSecret recaptchaURL "Invalid secret key" token up

/-! ## Helper lemmas -/

/-- Every branch of the multi-mode handler issues exactly the one outbound
POST built before the `await`. -/
theorem multiModeHandler_calls (c : Config) (r : Req) (up : FetchOutcome) :
    (multiModeHandler c r up).calls =
      [⟨"POST", turnstileURL, formPayload (secretLookup c r.mode) r.token⟩] := by
  cases up with
  | netError e => rfl
  | badJson e => rfl
  | ok b =>
      simp only [multiModeHandler]
      cases jsGet b "success" with
      | error e => rfl
      | ok v =>
          by_cases h : truthy v = true
          · simp [h]
          · simp [h]

/-- The multi-mode handler's response body is always one of three constant
JSON documents. -/
theorem multiModeHandler_body_cases (c : Config) (r : Req) (up : FetchOutcome) :
    (multiModeHandler c r up).response.body = Body.json internalErrorBody ∨
    (multiModeHandler c r up).response.body =
      Body.json (Json.mkObj [("success", Json.bool true)]) ∨
    (multiModeHandler c r up).response.body =
      Body.json (Json.mkObj [("success", Json.bool false)]) := by
  cases up with
  | netError e => exact Or.inl rfl
  | badJson e => exact Or.inl rfl
  | ok b =>
      simp only [multiModeHandler]
      cases jsGet b "success" with
      | error e => exact Or.inl rfl
      | ok v =>
          cases htv : truthy v with
          | true => exact Or.inr (Or.inl (by simp [htv]))
          | false => exact Or.inr (Or.inr (by simp [htv]))

/-- Every branch of the single-mode handler issues exactly the one outbound
POST built before the `await`. -/
theorem singleModeHandler_calls (c : Config) (r : Req) (up : FetchOutcome) :
    (singleModeHandler c r up).calls =
      [⟨"POST", turnstileURL, formPayload c.turnstileSecret r.token⟩] := by
  cases up <;> rfl

/-! ## Claim theorems -/

/-- C1: counterexample. With a recognized mode ("normal"), an outbound call
that succeeds and a response body that parses (to JSON `null`), the
`success` field is not truthy, yet the relay responds 500 with the generic
error body instead of the 400 `{success:false}` the claim requires: the
`data.success` access throws a `TypeError` on `null`. -/
theorem C1_counterexample :
    (multiModeHandler ⟨some "sk", some "nsk", some "isk", some "rsk"⟩
      ⟨some "tok", some "normal"⟩ (FetchOutcome.ok Json.null)).response.status = 500 ∧
    (multiModeHandler ⟨some "sk", some "nsk", some "isk", some "rsk"⟩
      ⟨some "tok", some "normal"⟩ (FetchOutcome.ok Json.null)).response ≠
      ⟨400, Body.json (Json.mkObj [("success", Json.bool false)])⟩ := by
  decide

/-- C1 (amended): for the multi-mode `POST /turnstile-check` endpoint, when
the outbound provider call succeeds, the body parses, and the access to the
body's `success` field does not throw (i.e. the parsed body is not JSON
`null`), a truthy `success` yields HTTP 200 `{success:true}` and a
non-truthy one yields HTTP 400 `{success:false}`. -/
theorem C1_success_mapping (c : Config) (r : Req) (b : Json) (v : Option Json)
    (h : jsGet b "success" = Except.ok v) :
    (multiModeHandler c r (FetchOutcome.ok b)).response =
      if truthy v then ⟨200, Body.json (Json.mkObj [("success", Json.bool true)])⟩
      else ⟨400, Body.json (Json.mkObj [("success", Json.bool false)])⟩ := by
  simp only [multiModeHandler, h]
  by_cases ht : truthy v = true
  · simp [ht]
  · simp [ht]

/-- C1 witness: a concrete request with mode "normal" and provider body
`{success:true}` yields 200 `{success:true}`. -/
theorem C1_success_mapping_witness :
    (multiModeHandler ⟨some "sk", some "nsk", some "isk", some "rsk"⟩
      ⟨some "tok", some "normal"⟩
      (FetchOutcome.ok (Json.mkObj [("success", Json.bool true)]))).response =
      ⟨200, Body.json (Json.mkObj [("success", Json.bool true)])⟩ :=
  C1_success_mapping ⟨some "sk", some "nsk", some "isk", some "rsk"⟩
    ⟨some "tok", some "normal"⟩ (Json.mkObj [("success", Json.bool true)])
    (some (Json.bool true)) rfl

/-- C2: counterexample. A request whose `mode` ("bogus") is not among the
configured modes still triggers an outbound provider call, and, when the
provider answers `{success:true}`, is answered 200 — not the 400
"Invalid mode" error without outbound call that the claim requires. -/
theorem C2_counterexample :
    (multiModeHandler ⟨some "sk", some "nsk", some "isk", some "rsk"⟩
      ⟨some "tok", some "bogus"⟩
      (FetchOutcome.ok (Json.mkObj [("success", Json.bool true)]))).calls ≠ [] ∧
    (multiModeHandler ⟨some "sk", some "nsk", some "isk", some "rsk"⟩
      ⟨some "tok", some "bogus"⟩
      (FetchOutcome.ok (Json.mkObj [("success", Json.bool true)]))).response.status = 200 := by
  decide

/-- C2 (amended): the multi-mode endpoint performs no mode validation.
For every request whose mode is absent or unrecognized (so that the secret
lookup yields `undefined`), the handler still issues exactly one outbound
call, with the `secret` form field serialized as the literal string
"undefined", and never responds with an "Invalid mode" error body. -/
theorem C2_no_mode_validation (c : Config) (r : Req) (up : FetchOutcome)
    (h : secretLookup c r.mode = none) :
    (multiModeHandler c r up).calls =
      [⟨"POST", turnstileURL, [("secret", "undefined"), ("response", serializeParam r.token)]⟩] ∧
    (multiModeHandler c r up).response.body ≠
      Body.json (Json.mkObj [("error", Json.str "Invalid mode")]) := by
  constructor
  · rw [multiModeHandler_calls, h]
    rfl
  · rcases multiModeHandler_body_cases c r up with hb | hb | hb <;> rw [hb] <;> decide

/-- C2 witness: with an unconfigured mode "bogus", the call is issued with
secret "undefined" and the response body is not an "Invalid mode" error. -/
theorem C2_no_mode_validation_witness :
    (multiModeHandler ⟨some "sk", some "nsk", some "isk", some "rsk"⟩
      ⟨some "tok", some "bogus"⟩ (FetchOutcome.netError "ECONNREFUSED")).calls =
      [⟨"POST", turnstileURL, [("secret", "undefined"), ("response", "tok")]⟩] ∧
    (multiModeHandler ⟨some "sk", some "nsk", some "isk", some "rsk"⟩
      ⟨some "tok", some "bogus"⟩ (FetchOutcome.netError "ECONNREFUSED")).response.body ≠
      Body.json (Json.mkObj [("error", Json.str "Invalid mode")]) :=
  C2_no_mode_validation ⟨some "sk", some "nsk", some "isk", some "rsk"⟩
    ⟨some "tok", some "bogus"⟩ (FetchOutcome.netError "ECONNREFUSED") (by decide)

/-- C3: every failure after secret resolution — a rejected fetch, a JSON
parse failure, or the `TypeError` thrown by `data.success` on a `null`
body — is answered HTTP 500 with the constant body
`{error:"Internal server error"}` (independent of the error detail `e`,
so nothing about the underlying error reaches the caller), while the error
is logged to the console; this holds in both variants. -/
theorem C3_error_paths (c : Config) (r : Req) (e : String) :
    (multiModeHandler c r (FetchOutcome.netError e)).response =
      ⟨500, Body.json internalErrorBody⟩ ∧
    (multiModeHandler c r (FetchOutcome.netError e)).log = [errLog e] ∧
    (multiModeHandler c r (FetchOutcome.badJson e)).response =
      ⟨500, Body.json internalErrorBody⟩ ∧
    (multiModeHandler c r (FetchOutcome.badJson e)).log = [errLog e] ∧
    (multiModeHandler c r (FetchOutcome.ok Json.null)).response =
      ⟨500, Body.json internalErrorBody⟩ ∧
    (multiModeHandler c r (FetchOutcome.ok Json.null)).log =
      [errLog "TypeError: Cannot read properties of null"] ∧
    (singleModeHandler c r (FetchOutcome.netError e)).response =
      ⟨500, Body.json internalErrorBody⟩ ∧
    (singleModeHandler c r (FetchOutcome.netError e)).log = [errLog e] ∧
    (singleModeHandler c r (FetchOutcome.badJson e)).response =
      ⟨500, Body.json internalErrorBody⟩ ∧
    (singleModeHandler c r (FetchOutcome.badJson e)).log = [errLog e] :=
  ⟨rfl, rfl, rfl, rfl, rfl, rfl, rfl, rfl, rfl, rfl⟩

/-- C4: for every inbound `POST /turnstile-check` request carrying a token,
each variant issues exactly one outbound POST (no retries) to the fixed
Cloudflare siteverify URL, whose form payload has exactly two fields: the
resolved secret under "secret" and the caller's token, unmodified, under
"response". -/
theorem C4_single_outbound_call (c : Config) (r : Req) (up : FetchOutcome)
    (t : String) (h : r.token = some t) :
    (multiModeHandler c r up).calls =
      [⟨"POST", turnstileURL,
        [("secret", serializeParam (secretLookup c r.mode)), ("response", t)]⟩] ∧
    (singleModeHandler c r up).calls =
      [⟨"POST", turnstileURL,
        [("secret", serializeParam c.turnstileSecret), ("response", t)]⟩] := by
  rw [multiModeHandler_calls, singleModeHandler_calls, h]
  exact ⟨rfl, rfl⟩

/-- C4 witness: a concrete request with token "tok" and mode "normal". -/
theorem C4_single_outbound_call_witness :
    (multiModeHandler ⟨some "sk", some "nsk", some "isk", some "rsk"⟩
      ⟨some "tok", some "normal"⟩ (FetchOutcome.netError "ECONNRESET")).calls =
      [⟨"POST", turnstileURL, [("secret", "nsk"), ("response", "tok")]⟩] ∧
    (singleModeHandler ⟨some "sk", some "nsk", some "isk", some "rsk"⟩
      ⟨some "tok", some "normal"⟩ (FetchOutcome.netError "ECONNRESET")).calls =
      [⟨"POST", turnstileURL, [("secret", "sk"), ("response", "tok")]⟩] :=
  C4_single_outbound_call ⟨some "sk", some "nsk", some "isk", some "rsk"⟩
    ⟨some "tok", some "normal"⟩ (FetchOutcome.netError "ECONNRESET") "tok" rfl

/-- C5: counterexample. An unhandled promise rejection is logged, but the
registered handler does not call `process.exit` at all — contrary to the
claim that the process exits with a non-zero code on any uncaught
asynchronous error. -/
theorem C5_counterexample :
    (unhandledRejectionHandler "[object Promise]" "boom").exit = none ∧
    (unhandledRejectionHandler "[object Promise]" "boom").log ≠ [] := by
  decide

/-- C5 (amended): the process exits with code 1, after logging, when the
configured port is already bound (`EADDRINUSE`) — and on any other listen
error — and on an uncaught exception; an unhandled promise rejection is
only logged and does not terminate the process. -/
theorem C5_exit_behavior (port : Nat) (code err promise reason : String) :
    (listenErrorHandler port "EADDRINUSE").exit = some 1 ∧
    (listenErrorHandler port "EADDRINUSE").log ≠ [] ∧
    (listenErrorHandler port code).exit = some 1 ∧
    (listenErrorHandler port code).log ≠ [] ∧
    (uncaughtExceptionHandler err).exit = some 1 ∧
    (uncaughtExceptionHandler err).log ≠ [] ∧
    (unhandledRejectionHandler promise reason).exit = none ∧
    (unhandledRejectionHandler promise reason).log ≠ [] := by
  refine ⟨rfl, by simp [listenErrorHandler], ?_, ?_, rfl,
    by simp [uncaughtExceptionHandler], rfl, by simp [unhandledRejectionHandler]⟩
  · unfold listenErrorHandler
    split <;> rfl
  · unfold listenErrorHandler
    split <;> simp

/-- C6: counterexample. An `OPTIONS` request short-circuits with status 200,
but its body is the status text "OK" written by `res.sendStatus(200)` — not
the empty body the claim states. -/
theorem C6_counterexample :
    (dispatchMulti ⟨some "sk", some "nsk", some "isk", some "rsk"⟩ "OPTIONS"
      "/turnstile-check" ⟨some "tok", some "normal"⟩
      (FetchOutcome.ok Json.null)).response.status = 200 ∧
    (dispatchMulti ⟨some "sk", some "nsk", some "isk", some "rsk"⟩ "OPTIONS"
      "/turnstile-check" ⟨some "tok", some "normal"⟩
      (FetchOutcome.ok Json.null)).response.body = Body.text "OK" ∧
    (dispatchMulti ⟨some "sk", some "nsk", some "isk", some "rsk"⟩ "OPTIONS"
      "/turnstile-check" ⟨some "tok", some "normal"⟩
      (FetchOutcome.ok Json.null)).response.body ≠ Body.empty := by
  decide

/-- C6 (amended): every `OPTIONS` request, to any path, is answered in the
CORS middleware with HTTP 200 and the status text "OK" as body, before any
route handler runs: no outbound call is issued and nothing is logged. -/
theorem C6_options_short_circuit (c : Config) (path : String) (r : Req)
    (up : FetchOutcome) :
    dispatchMulti c "OPTIONS" path r up =
      ⟨⟨200, Body.text "OK"⟩, [], []⟩ := rfl

/-- C7: the multi-mode handler is deterministic and stateless — two
invocations over process states agreeing on the (read-only) configuration
produce identical responses regardless of the accumulated console state,
and the configuration is never mutated: handling only appends log lines to
the console. -/
theorem C7_stateless (s₁ s₂ : ProcState) (r : Req) (up : FetchOutcome)
    (h : s₁.config = s₂.config) :
    (serverStep s₁ r up).1 = (serverStep s₂ r up).1 ∧
    (serverStep s₁ r up).2.config = s₁.config ∧
    (serverStep s₁ r up).2.console =
      s₁.console ++ (multiModeHandler s₁.config r up).log := by
  unfold serverStep
  rw [h]
  exact ⟨rfl, rfl, rfl⟩

/-- C7 witness: the same request and upstream response give the same relay
response over two process states with different console histories. -/
theorem C7_stateless_witness :
    (serverStep ⟨⟨some "sk", some "nsk", some "isk", some "rsk"⟩, []⟩
      ⟨some "tok", some "normal"⟩
      (FetchOutcome.ok (Json.mkObj [("success", Json.bool true)]))).1 =
    (serverStep ⟨⟨some "sk", some "nsk", some "isk", some "rsk"⟩,
        ["a log line from an earlier request"]⟩
      ⟨some "tok", some "normal"⟩
      (FetchOutcome.ok (Json.mkObj [("success", Json.bool true)]))).1 ∧
    (serverStep ⟨⟨some "sk", some "nsk", some "isk", some "rsk"⟩, []⟩
      ⟨some "tok", some "normal"⟩
      (FetchOutcome.ok (Json.mkObj [("success", Json.bool true)]))).2.config =
      ⟨some "sk", some "nsk", some "isk", some "rsk"⟩ ∧
    (serverStep ⟨⟨some "sk", some "nsk", some "isk", some "rsk"⟩, []⟩
      ⟨some "tok", some "normal"⟩
      (FetchOutcome.ok (Json.mkObj [("success", Json.bool true)]))).2.console =
      [] ++ (multiModeHandler ⟨some "sk", some "nsk", some "isk", some "rsk"⟩
        ⟨some "tok", some "normal"⟩
        (FetchOutcome.ok (Json.mkObj [("success", Json.bool true)]))).log :=
  C7_stateless ⟨⟨some "sk", some "nsk", some "isk", some "rsk"⟩, []⟩
    ⟨⟨some "sk", some "nsk", some "isk", some "rsk"⟩,
      ["a log line from an earlier request"]⟩
    ⟨some "tok", some "normal"⟩
    (FetchOutcome.ok (Json.mkObj [("success", Json.bool true)])) rfl

/-- C8: the `/recaptcha` route is the thin binding of the generic
verification operation to the reCAPTCHA secret and the Google siteverify
URL; with a configured secret, a provider body with truthy `success` is
answered 200 `{success:true}` and one without is answered 400
`{success:false}`; with no configured secret it answers 400
`{error:"Invalid secret key"}` without any outbound call. -/
theorem C8_recaptcha_route (c : Config) (tok : Option String) (b : Json) :
    (∀ up, recaptchaHandler c tok up =
      verifyWith c.recaptchaSecret recaptchaURL "Invalid secret key" tok up) ∧
    (c.recaptchaSecret.isSome = true →
      ((truthy (successField b) = true →
        (recaptchaHandler c tok (FetchOutcome.ok b)).response =
          ⟨200, Body.json (Json.mkObj [("success", Json.bool true)])⟩) ∧
       (truthy (successField b) = false →
        (recaptchaHandler c tok (FetchOutcome.ok b)).response =
          ⟨400, Body.json (Json.mkObj [("success", Json.bool false)])⟩))) ∧
    (c.recaptchaSecret = none →
      ∀ up, (recaptchaHandler c tok up).response =
        ⟨400, Body.json (Json.mkObj [("error", Json.str "Invalid secret key")])⟩ ∧
        (recaptchaHandler c tok up).calls = []) := by
  refine ⟨fun up => rfl, ?_, ?_⟩
  · intro hs
    rcases Option.isSome_iff_exists.mp hs with ⟨s, hsec⟩
    constructor
    · intro ht
      simp [recaptchaHandler, verifyWith, hsec, ht]
    · intro ht
      simp [recaptchaHandler, verifyWith, hsec, ht]
  · intro hnone up
    simp [recaptchaHandler, verifyWith, hnone]

/-- C8 witness: with a configured secret and a provider body
`{success:true}`, the modelled `/recaptcha` route answers 200
`{success:true}`; with no secret it answers 400 `{error:"Invalid secret key"}`. -/
theorem C8_recaptcha_route_witness :
    (recaptchaHandler ⟨none, none, none, some "rsk"⟩ (some "tok")
      (FetchOutcome.ok (Json.mkObj [("success", Json.bool true)]))).response =
      ⟨200, Body.json (Json.mkObj [("success", Json.bool true)])⟩ ∧
    (recaptchaHandler ⟨none, none, none, none⟩ (some "tok")
      (FetchOutcome.ok (Json.mkObj [("success", Json.bool true)]))).response =
      ⟨400, Body.json (Json.mkObj [("error", Json.str "Invalid secret key")])⟩ :=
  ⟨((C8_recaptcha_route ⟨none, none, none, some "rsk"⟩ (some "tok")
      (Json.mkObj [("success", Json.bool true)])).2.1 rfl).1 rfl,
   ((C8_recaptcha_route ⟨none, none, none, none⟩ (some "tok")
      (Json.mkObj [("success", Json.bool true)])).2.2 rfl
      (FetchOutcome.ok (Json.mkObj [("success", Json.bool true)]))).1⟩

/-- C9: implicit behavior of the multi-mode handler — no presence
validation: with the token absent, or the secret unresolved (unrecognized
mode), the outbound POST is still issued, `URLSearchParams` serializing the
missing value as the literal string "undefined" in the corresponding form
field. -/
theorem C9_undefined_serialization (c : Config) (r : Req) (up : FetchOutcome) :
    (r.token = none →
      (multiModeHandler c r up).calls =
        [⟨"POST", turnstileURL,
          [("secret", serializeParam (secretLookup c r.mode)),
           ("response", "undefined")]⟩]) ∧
    (secretLookup c r.mode = none →
      (multiModeHandler c r up).calls =
        [⟨"POST", turnstileURL,
          [("secret", "undefined"), ("response", serializeParam r.token)]⟩]) := by
  constructor
  · intro h
    rw [multiModeHandler_calls, h]
    rfl
  · intro h
    rw [multiModeHandler_calls, h]
    rfl

/-- C9 witness: a request with no token and an unrecognized mode still
triggers the outbound call, both form fields being the string "undefined". -/
theorem C9_undefined_serialization_witness :
    (multiModeHandler ⟨some "sk", some "nsk", some "isk", some "rsk"⟩
      ⟨none, some "bogus"⟩ (FetchOutcome.ok Json.null)).calls =
      [⟨"POST", turnstileURL,
        [("secret", "undefined"), ("response", "undefined")]⟩] :=
  (C9_undefined_serialization ⟨some "sk", some "nsk", some "isk", some "rsk"⟩
    ⟨none, some "bogus"⟩ (FetchOutcome.ok Json.null)).2 rfl

/-- C10: the single-mode variant relays the provider's parsed JSON body
verbatim with status 200 whenever the outbound call and the JSON parse
succeed — whatever the `success` field holds, it never answers 400. -/
theorem C10_single_mode_passthrough (c : Config) (r : Req) (b : Json) :
    (singleModeHandler c r (FetchOutcome.ok b)).response = ⟨200, Body.json b⟩ ∧
    (singleModeHandler c r (FetchOutcome.ok b)).response.status ≠ 400 :=
  ⟨rfl, by simp [singleModeHandler]⟩
